import Mathlib

/-!
Shallow embedding of the Weatherstack API client repository
(src/api_client/weather_client.py, src/utils/helpers.py,
src/utils/exceptions.py, src/config/config.py).

Python values that can appear in a parsed JSON response are modelled by
`JSON`; `json.loads` maps JSON `null` to Python `None`, so a single `null`
constructor covers both.  Dictionary access, membership tests and attribute
errors are modelled explicitly, so that the Python-level exceptions
(`TypeError`, `AttributeError`, `KeyError`, `AssertionError`) the source can
raise are visible as `Except.error` values.
-/

/-- A parsed JSON value as produced by Python's `json.loads`.  Numbers are
modelled as rationals (ints and floats are not distinguished beyond
`den = 1`). -/
inductive JSON where
  | null : JSON
  | bool : Bool → JSON
  | num : ℚ → JSON
  | str : String → JSON
  | arr : List JSON → JSON
  | obj : List (String × JSON) → JSON

/-- The Python exception kinds that the modelled operations can raise. -/
inductive PyErr where
  | typeError
  | attributeError
  | keyError
  | assertionError
deriving DecidableEq

/-- Substring test, modelling Python's `pat in s` for strings. -/
def strContainsSub (s pat : String) : Bool :=
  s.data.tails.any (fun t => pat.data.isPrefixOf t)

/-- Python membership test `k in j`: key membership for dicts, element
equality for lists, substring for strings; `TypeError` otherwise
("argument of type ... is not iterable"). -/
def pyContains (j : JSON) (k : String) : Except PyErr Bool :=
  match j with
  | .obj kvs => .ok (kvs.lookup k).isSome
  | .arr xs => .ok (xs.any (fun x => match x with | .str s => s == k | _ => false))
  | .str s => .ok (strContainsSub s k)
  | _ => .error .typeError

/-- Python subscript `j[k]` with a string key: raises `KeyError` on a dict
without the key and `TypeError` on any non-dict value. -/
def pyIndex (j : JSON) (k : String) : Except PyErr JSON :=
  match j with
  | .obj kvs =>
    match kvs.lookup k with
    | some v => .ok v
    | none => .error .keyError
  | _ => .error .typeError

/-- Python `j.get(k)` (default `None`): only dicts have a `.get` attribute,
any other value raises `AttributeError`. -/
def pyGet (j : JSON) (k : String) : Except PyErr JSON :=
  match j with
  | .obj kvs => .ok ((kvs.lookup k).getD .null)
  | _ => .error .attributeError

/-- Python `j.get(k, d)` with an explicit default. -/
def pyGetD (j : JSON) (k : String) (d : JSON) : Except PyErr JSON :=
  match j with
  | .obj kvs => .ok ((kvs.lookup k).getD d)
  | _ => .error .attributeError

/-- Python `assert b`: raises `AssertionError` when `b` is false. -/
def passert (b : Bool) : Except PyErr Unit :=
  if b then .ok () else .error .assertionError

/-- `isinstance(x, str)`. -/
def JSON.isStr : JSON → Bool
  | .str _ => true
  | _ => false

/-- `isinstance(x, (int, float))`; Python `bool` is a subclass of `int`,
so booleans count as numeric. -/
def JSON.isPyNum : JSON → Bool
  | .num _ => true
  | .bool _ => true
  | _ => false

/-- `isinstance(x, list)`. -/
def JSON.isList : JSON → Bool
  | .arr _ => true
  | _ => false

/-- Decimal rendering of a JSON number as Python prints it (integral values
print without a fractional part; the exact float formatting of non-integral
values is not modelled further). -/
def numStr (q : ℚ) : String :=
  if q.den = 1 then toString q.num else toString q

mutual

/-- Python `repr()`, as used for values nested inside containers.  String
escaping inside `repr` is not modelled. -/
def pyRepr : JSON → String
  | .null => "None"
  | .bool true => "True"
  | .bool false => "False"
  | .num q => numStr q
  | .str s => "\x27" ++ s ++ "\x27"
  | .arr xs => "[" ++ pyReprList xs ++ "]"
  | .obj kvs => "\x7b" ++ pyReprObj kvs ++ "\x7d"

/-- Comma-separated reprs of the elements of a list. -/
def pyReprList : List JSON → String
  | [] => ""
  | [x] => pyRepr x
  | x :: xs => pyRepr x ++ ", " ++ pyReprList xs

/-- Comma-separated `'key': repr(value)` pairs of a dict. -/
def pyReprObj : List (String × JSON) → String
  | [] => ""
  | [(k, v)] => "\x27" ++ k ++ "\x27: " ++ pyRepr v
  | (k, v) :: kvs => "\x27" ++ k ++ "\x27: " ++ pyRepr v ++ ", " ++ pyReprObj kvs

end

/-- Python `str()`, as used by f-string interpolation: a string interpolates
as itself, every other value as its repr. -/
def pyStr : JSON → String
  | .str s => s
  | v => pyRepr v

/-- Python `==` between a JSON value and an integer literal, as used by
`error_code in [101, 102]`.  Python compares ints and floats by value and
`True == 1`, `False == 0`. -/
def pyEqNum (v : JSON) (n : ℚ) : Bool :=
  match v with
  | .num q => q == n
  | .bool b => (if b then (1 : ℚ) else 0) == n
  | _ => false

/-! ## ResponseValidator (src/utils/helpers.py) -/

/-- `required_keys` of `validate_response_structure`. -/
def required_keys_response : List String := ["request", "location", "current"]

/-- `required_keys` of `validate_location_data`. -/
def required_keys_location : List String :=
  ["name", "country", "region", "lat", "lon", "timezone_id"]

/-- `required_keys` of `validate_current_weather_data`. -/
def required_keys_current : List String :=
  ["temperature", "weather_descriptions", "wind_speed", "wind_degree",
   "pressure", "humidity", "cloudcover", "feelslike", "visibility"]

/-- Python `all(key in j for key in ks)`, short-circuiting. -/
def allContains (j : JSON) : List String → Except PyErr Bool
  | [] => .ok true
  | k :: ks => do
    let b ← pyContains j k
    if b then allContains j ks else .ok false

/-- Python `[key for key in ks if key not in j]`. -/
def missingKeys (j : JSON) : List String → Except PyErr (List String)
  | [] => .ok []
  | k :: ks => do
    let b ← pyContains j k
    let rest ← missingKeys j ks
    if b then .ok rest else .ok (k :: rest)

/-- `ResponseValidator.validate_response_structure`.  The returned list is
the `missing_keys` list passed to `logger.error` (empty when nothing is
logged, i.e. on the `True` return). -/
def validate_response_structure (response : JSON) :
    Except PyErr (Bool × List String) := do
  let ok ← allContains response required_keys_response
  if ok then
    .ok (true, [])
  else do
    let missing ← missingKeys response required_keys_response
    .ok (false, missing)

/-- `ResponseValidator.validate_location_data` (the logged missing-key list
is not tracked here, only the returned boolean). -/
def validate_location_data (location_data : JSON) : Except PyErr Bool :=
  allContains location_data required_keys_location

/-- `ResponseValidator.validate_current_weather_data`. -/
def validate_current_weather_data (current_data : JSON) : Except PyErr Bool :=
  allContains current_data required_keys_current

/-- The `try` body of `ResponseValidator.validate_data_types`: the sequence
of `response.get` / `.get` accesses and `assert isinstance` checks. -/
def validate_data_types_body (response : JSON) : Except PyErr Bool := do
  let location ← pyGetD response "location" (.obj [])
  let v ← pyGet location "name"
  passert v.isStr
  let v ← pyGet location "country"
  passert v.isStr
  let v ← pyGet location "lat"
  passert v.isStr
  let v ← pyGet location "lon"
  passert v.isStr
  let current ← pyGetD response "current" (.obj [])
  let v ← pyGet current "temperature"
  passert v.isPyNum
  let v ← pyGet current "weather_descriptions"
  passert v.isList
  let v ← pyGet current "wind_speed"
  passert v.isPyNum
  let v ← pyGet current "humidity"
  passert v.isPyNum
  let v ← pyGet current "pressure"
  passert v.isPyNum
  .ok true

/-- `ResponseValidator.validate_data_types`: the body wrapped in
`except (AssertionError, TypeError, AttributeError): return False`. -/
def validate_data_types (response : JSON) : Except PyErr Bool :=
  match validate_data_types_body response with
  | .ok b => .ok b
  | .error .assertionError => .ok false
  | .error .typeError => .ok false
  | .error .attributeError => .ok false
  | .error e => .error e

/-! ## Exceptions (src/utils/exceptions.py) and DataHelper -/

/-- The exception taxonomy.  Every raise site in the repository passes a
message and at most an `error_code=` keyword; the `error_code` field holds
the raw JSON value of the service error code (`null` models Python `None`,
the constructor default). -/
inductive WExc where
  | invalidAPIKey (message : String) (error_code : JSON)
  | invalidLocation (message : String) (error_code : JSON)
  | apiRequest (message : String) (error_code : JSON)
  | usageLimit (message : String) (error_code : JSON)
  | timeout (message : String) (error_code : JSON)

/-- `DataHelper.extract_error_info`: `(error.get("code"), error.get("info"))`
when `"error" in response`, else `(None, None)`. -/
def extract_error_info (response : JSON) : Except PyErr (JSON × JSON) := do
  let b ← pyContains response "error"
  if b then do
    let e ← pyIndex response "error"
    let c ← pyGet e "code"
    let i ← pyGet e "info"
    .ok (c, i)
  else
    .ok (.null, .null)

/-- `DataHelper.log_response`: only the accesses that can raise are kept
(`'location' in response`, `response['location'].get(...)`,
`"error" in response` and the `response['error']` subscript interpolated
into the error log line); the log text itself is discarded. -/
def log_response (response : JSON) : Except PyErr Unit := do
  let hasLoc ← pyContains response "location"
  if hasLoc then do
    let loc ← pyIndex response "location"
    let _ ← pyGet loc "name"
    let _ ← pyGet loc "country"
    pure ()
  let hasErr ← pyContains response "error"
  if hasErr then do
    let _ ← pyIndex response "error"
    pure ()
  pure ()

/-! ## Configuration (src/config/config.py) -/

def API_BASE_URL : String := "https://api.weatherstack.com"

def API_KEY : String := "b6c3ba2323249a96c37b7eff8c1c2d89"

def TIMEOUT : Nat := 10

def MAX_RETRIES : Nat := 3

def ENDPOINTS : List (String × String) :=
  [("current", "/current"), ("historical", "/historical"),
   ("forecast", "/forecast")]

/-- Python default argument `units="m"` of the three query operations. -/
def UNITS_DEFAULT : String := "m"

/-- Python default argument `forecast_days=7` of `get_forecast_weather`. -/
def FORECAST_DAYS_DEFAULT : Int := 7

/-! ## WeatherAPIClient (src/api_client/weather_client.py) -/

/-- Outcome of one `session.get` attempt, as seen by `_make_request`.
`timeout` is `requests.exceptions.Timeout`; `reqError d` is any other
`requests.exceptions.RequestException` whose `str()` is `d` (connection
refused, DNS failure, ...); `response status body` is a received HTTP
response with the given status code, `body = none` meaning the body is not
parseable as JSON (`response.json()` raises `ValueError`). -/
inductive Outcome where
  | timeout
  | reqError (descr : String)
  | response (status : Nat) (body : Option JSON)

/-- What a `_make_request` call can raise: a `WeatherAPIException`, or a
plain Python exception escaping from `DataHelper.log_response`. -/
inductive ReqErr where
  | exc (e : WExc)
  | py (e : PyErr)

/-- Models `str()` of the `requests.exceptions.HTTPError` raised by
`response.raise_for_status()` for a failing status; the exact text comes
from the requests library and only its dependence on the status matters. -/
def httpErrorStr (status : Nat) : String := "HTTP error " ++ toString status

/-- `WeatherAPIClient._make_request`.  The network is abstracted by
`oracle`, giving the outcome of the send on each attempt number; the
returned counters are (number of `session.get` calls, number of
`time.sleep(1)` calls).  `r` is the `retry_count` argument (default 0). -/
def make_request (oracle : Nat → Outcome) (maxRetries : Nat) (r : Nat) :
    Except ReqErr JSON × Nat × Nat :=
  match oracle r with
  | .timeout =>
    if _h : r < maxRetries then
      let out := make_request oracle maxRetries (r + 1)
      (out.1, out.2.1 + 1, out.2.2 + 1)
    else
      (.error (.exc (.timeout "Request timeout after maximum retries" .null)), 1, 0)
  | .reqError descr =>
    (.error (.exc (.apiRequest ("Request failed: " ++ descr) .null)), 1, 0)
  | .response status body =>
    match body with
    | none =>
      if 400 ≤ status ∧ status < 600 then
        (.error (.exc (.apiRequest ("Request failed: " ++ httpErrorStr status) .null)), 1, 0)
      else
        (.error (.exc (.apiRequest "Invalid JSON response from API" .null)), 1, 0)
    | some data =>
      match log_response data with
      | .error e => (.error (.py e), 1, 0)
      | .ok _ => (.ok data, 1, 0)
termination_by maxRetries - r
decreasing_by omega

/-- Result of `WeatherAPIClient._handle_error_response`. -/
inductive HandleResult where
  | normal
  | raised (e : WExc)
  | pyError (e : PyErr)

/-- `WeatherAPIClient._handle_error_response`. -/
def handle_error_response (data : JSON) : HandleResult :=
  match pyContains data "error" with
  | .error e => .pyError e
  | .ok false => .normal
  | .ok true =>
    match extract_error_info data with
    | .error e => .pyError e
    | .ok (code, info) =>
      if pyEqNum code 101 || pyEqNum code 102 then
        .raised (.invalidAPIKey ("Invalid API key: " ++ pyStr info) code)
      else if pyEqNum code 601 || pyEqNum code 615 then
        .raised (.invalidLocation ("Invalid location: " ++ pyStr info) code)
      else if pyEqNum code 104 then
        .raised (.usageLimit ("Usage limit reached: " ++ pyStr info) code)
      else
        .raised (.apiRequest ("API error " ++ pyStr code ++ ": " ++ pyStr info) code)

/-- The client state set up by `WeatherAPIClient.__init__`. -/
structure WeatherAPIClient where
  api_key : String
  base_url : String
  timeout : Nat
  max_retries : Nat

/-- A client built with the configuration defaults. -/
def defaultClient : WeatherAPIClient :=
  ⟨API_KEY, API_BASE_URL, TIMEOUT, MAX_RETRIES⟩

/-- A query-parameter value: the repository sends strings and one integer
(`forecast_days`). -/
inductive PVal where
  | s (v : String)
  | i (v : Int)

/-- The request a query operation hands to `_make_request`. -/
structure Request where
  endpoint : String
  params : List (String × PVal)

/-- What a query operation call produces: the full parsed payload, a raised
`WeatherAPIException`, or an escaping plain Python exception. -/
inductive QueryResult where
  | ok (data : JSON)
  | exc (e : WExc)
  | pyexc (e : PyErr)

/-- The shared tail of every query operation:
`data = self._make_request(endpoint, params); self._handle_error_response(data);
return data`. -/
def runQuery (c : WeatherAPIClient) (oracle : Nat → Outcome) : QueryResult :=
  match (make_request oracle c.max_retries 0).1 with
  | .error (.exc e) => .exc e
  | .error (.py e) => .pyexc e
  | .ok data =>
    match handle_error_response data with
    | .normal => .ok data
    | .raised e => .exc e
    | .pyError e => .pyexc e

/-- `WeatherAPIClient.get_current_weather`.  The first component is the
request sent to `_make_request`; the oracle abstracts the network's
behaviour for this call. -/
def get_current_weather (c : WeatherAPIClient) (oracle : Nat → Outcome)
    (location units : String) : Request × QueryResult :=
  let endpoint := (ENDPOINTS.lookup "current").getD ""
  let params : List (String × PVal) :=
    [("access_key", .s c.api_key), ("query", .s location), ("units", .s units)]
  (⟨endpoint, params⟩, runQuery c oracle)

/-- `WeatherAPIClient.get_historical_weather`. -/
def get_historical_weather (c : WeatherAPIClient) (oracle : Nat → Outcome)
    (location historical_date units : String) : Request × QueryResult :=
  let endpoint := (ENDPOINTS.lookup "historical").getD ""
  let params : List (String × PVal) :=
    [("access_key", .s c.api_key), ("query", .s location),
     ("historical_date", .s historical_date), ("units", .s units)]
  (⟨endpoint, params⟩, runQuery c oracle)

/-- `WeatherAPIClient.get_forecast_weather`. -/
def get_forecast_weather (c : WeatherAPIClient) (oracle : Nat → Outcome)
    (location : String) (forecast_days : Int) (units : String) :
    Request × QueryResult :=
  let endpoint := (ENDPOINTS.lookup "forecast").getD ""
  let params : List (String × PVal) :=
    [("access_key", .s c.api_key), ("query", .s location),
     ("forecast_days", .i forecast_days), ("units", .s units)]
  (⟨endpoint, params⟩, runQuery c oracle)

/-! ## Claim-side definitions -/

/-- `some (.str _)`. -/
def isStrOpt : Option JSON → Bool
  | some (.str _) => true
  | _ => false

/-- `some` of a Python-numeric value. -/
def isPyNumOpt : Option JSON → Bool
  | some v => v.isPyNum
  | none => false

/-- `some (.arr _)`. -/
def isListOpt : Option JSON → Bool
  | some (.arr _) => true
  | _ => false

/-- The conditions of the `validate_data_types` claim, stated directly from
the claim's words: `location.name`, `country`, `lat`, `lon` are strings,
`current.temperature`, `wind_speed`, `humidity`, `pressure` are numeric and
`current.weather_descriptions` is a sequence. -/
def validate_data_types_claim (p : JSON) : Bool :=
  match p with
  | .obj kvs =>
    (match kvs.lookup "location" with
     | some (.obj loc) =>
       isStrOpt (loc.lookup "name") && isStrOpt (loc.lookup "country") &&
       isStrOpt (loc.lookup "lat") && isStrOpt (loc.lookup "lon")
     | _ => false) &&
    (match kvs.lookup "current" with
     | some (.obj cur) =>
       isPyNumOpt (cur.lookup "temperature") &&
       isPyNumOpt (cur.lookup "wind_speed") &&
       isPyNumOpt (cur.lookup "humidity") &&
       isPyNumOpt (cur.lookup "pressure") &&
       isListOpt (cur.lookup "weather_descriptions")
     | _ => false)
  | _ => false

/-! ## Helper lemmas -/

lemma make_request_timeouts_then_ok
    (oracle : Nat → Outcome) (M st : Nat) (j : JSON)
    (hlog : log_response j = .ok ()) :
    ∀ N r, (∀ i, i < N → oracle (r + i) = .timeout) →
      oracle (r + N) = .response st (some j) → r + N ≤ M →
      make_request oracle M r = (.ok j, N + 1, N) := by
  intro N
  induction N with
  | zero =>
    intro r _ hres _
    rw [Nat.add_zero] at hres
    rw [make_request, hres]
    simp [hlog]
  | succ N ih =>
    intro r hto hres hle
    have h0 : oracle r = .timeout := by
      have := hto 0 (Nat.succ_pos N)
      rwa [Nat.add_zero] at this
    have hrM : r < M := by omega
    rw [make_request, h0]
    have hrec : make_request oracle M (r + 1) = (.ok j, N + 1, N) := by
      refine ih (r + 1) (fun i hi => ?_) ?_ (by omega)
      · have := hto (i + 1) (by omega)
        rwa [show r + (i + 1) = r + 1 + i by omega] at this
      · rwa [show r + (N + 1) = r + 1 + N by omega] at hres
    simp [hrM, hrec]

lemma make_request_all_timeouts (oracle : Nat → Outcome) (M : Nat) :
    ∀ k r, r + k = M → (∀ i, i ≤ k → oracle (r + i) = .timeout) →
      make_request oracle M r =
        (.error (.exc (.timeout "Request timeout after maximum retries" .null)),
         k + 1, k) := by
  intro k
  induction k with
  | zero =>
    intro r hM hto
    have h0 : oracle r = .timeout := by
      have := hto 0 (Nat.le_refl 0)
      rwa [Nat.add_zero] at this
    rw [make_request, h0]
    simp [show ¬ r < M by omega]
  | succ k ih =>
    intro r hM hto
    have h0 : oracle r = .timeout := by
      have := hto 0 (Nat.zero_le _)
      rwa [Nat.add_zero] at this
    have hrM : r < M := by omega
    rw [make_request, h0]
    have hrec := ih (r + 1) (by omega) (fun i hi => by
      have := hto (i + 1) (by omega)
      rwa [show r + (i + 1) = r + 1 + i by omega] at this)
    simp [hrM, hrec]

lemma make_request_sends_le (oracle : Nat → Outcome) (M : Nat) :
    ∀ k r, M - r ≤ k → (make_request oracle M r).2.1 ≤ M - r + 1 := by
  intro k
  induction k with
  | zero =>
    intro r h
    rw [make_request]
    cases ho : oracle r with
    | timeout => simp [show ¬ r < M by omega]
    | reqError d => simp
    | response st body =>
      cases body with
      | none => dsimp only; split <;> simp
      | some data => dsimp only; cases hl : log_response data <;> simp
  | succ k ih =>
    intro r h
    rw [make_request]
    cases ho : oracle r with
    | timeout =>
      dsimp only
      split
      · next hrM =>
        have := ih (r + 1) (by omega)
        simp only []
        have harith : M - (r + 1) + 1 = M - r := by omega
        omega
      · simp
    | reqError d => simp
    | response st body =>
      cases body with
      | none => dsimp only; split <;> simp
      | some data => dsimp only; cases hl : log_response data <;> simp

lemma pyContains_obj (kvs : List (String × JSON)) (k : String) :
    pyContains (.obj kvs) k = .ok (kvs.lookup k).isSome := rfl

lemma allContains_obj (kvs : List (String × JSON)) :
    ∀ ks : List String,
      allContains (.obj kvs) ks = .ok (ks.all (fun k => (kvs.lookup k).isSome)) := by
  intro ks
  induction ks with
  | nil => rfl
  | cons k ks ih =>
    rw [allContains]
    cases hlk : kvs.lookup k <;>
      simp [pyContains_obj, hlk, ih, bind, Except.bind]

lemma missingKeys_obj (kvs : List (String × JSON)) :
    ∀ ks : List String,
      missingKeys (.obj kvs) ks =
        .ok (ks.filter (fun k => !(kvs.lookup k).isSome)) := by
  intro ks
  induction ks with
  | nil => rfl
  | cons k ks ih =>
    rw [missingKeys]
    cases hlk : kvs.lookup k <;>
      simp [pyContains_obj, hlk, ih, bind, Except.bind, List.filter_cons]

lemma validate_response_structure_obj (kvs : List (String × JSON)) :
    validate_response_structure (.obj kvs) =
      .ok (required_keys_response.all (fun k => (kvs.lookup k).isSome),
           required_keys_response.filter (fun k => !(kvs.lookup k).isSome)) := by
  rw [validate_response_structure]
  rw [allContains_obj]
  cases hall : required_keys_response.all (fun k => (kvs.lookup k).isSome) with
  | true =>
    have hfil : required_keys_response.filter
        (fun k => !(kvs.lookup k).isSome) = [] := by
      rw [List.filter_eq_nil_iff]
      intro k hk
      have h2 := List.all_eq_true.mp hall k hk
      simp_all
    rw [hfil]
    rfl
  | false =>
    simp [bind, Except.bind, missingKeys_obj]
lemma isStr_null : JSON.null.isStr = false := rfl

lemma isPyNum_null : JSON.null.isPyNum = false := rfl

lemma isList_null : JSON.null.isList = false := rfl

lemma isStrOpt_getD (o : Option JSON) : isStrOpt o = (o.getD JSON.null).isStr := by
  cases o with
  | none => rfl
  | some v => cases v <;> rfl

lemma isPyNumOpt_getD (o : Option JSON) : isPyNumOpt o = (o.getD JSON.null).isPyNum := by
  cases o with
  | none => rfl
  | some v => cases v <;> rfl

lemma isListOpt_getD (o : Option JSON) : isListOpt o = (o.getD JSON.null).isList := by
  cases o with
  | none => rfl
  | some v => cases v <;> rfl

/-- Master lemma: `validate_data_types` never raises and returns exactly the
boolean described by the type conditions. -/
lemma validate_data_types_eq (p : JSON) :
    validate_data_types p = .ok (validate_data_types_claim p) := by
  cases p with
  | obj kvs =>
    rcases hL : kvs.lookup "location" with _ | v
    · simp [validate_data_types, validate_data_types_body, validate_data_types_claim, pyGetD, pyGet, passert, bind, Except.bind, isStrOpt_getD, isPyNumOpt_getD, isListOpt_getD, isStr_null, isPyNum_null, isList_null, hL]
    · cases v with
      | obj loc =>
        cases h1 : ((loc.lookup "name").getD JSON.null).isStr with
        | false =>
          simp [validate_data_types, validate_data_types_body, validate_data_types_claim, pyGetD, pyGet, passert, bind, Except.bind, isStrOpt_getD, isPyNumOpt_getD, isListOpt_getD, isStr_null, isPyNum_null, isList_null, hL, h1]
        | true =>
          cases h2 : ((loc.lookup "country").getD JSON.null).isStr with
          | false =>
            simp [validate_data_types, validate_data_types_body, validate_data_types_claim, pyGetD, pyGet, passert, bind, Except.bind, isStrOpt_getD, isPyNumOpt_getD, isListOpt_getD, isStr_null, isPyNum_null, isList_null, hL, h1, h2]
          | true =>
            cases h3 : ((loc.lookup "lat").getD JSON.null).isStr with
            | false =>
              simp [validate_data_types, validate_data_types_body, validate_data_types_claim, pyGetD, pyGet, passert, bind, Except.bind, isStrOpt_getD, isPyNumOpt_getD, isListOpt_getD, isStr_null, isPyNum_null, isList_null, hL, h1, h2, h3]
            | true =>
              cases h4 : ((loc.lookup "lon").getD JSON.null).isStr with
              | false =>
                simp [validate_data_types, validate_data_types_body, validate_data_types_claim, pyGetD, pyGet, passert, bind, Except.bind, isStrOpt_getD, isPyNumOpt_getD, isListOpt_getD, isStr_null, isPyNum_null, isList_null, hL, h1, h2, h3, h4]
              | true =>
                rcases hC : kvs.lookup "current" with _ | w
                · simp [validate_data_types, validate_data_types_body, validate_data_types_claim, pyGetD, pyGet, passert, bind, Except.bind, isStrOpt_getD, isPyNumOpt_getD, isListOpt_getD, isStr_null, isPyNum_null, isList_null, hL, h1, h2, h3, h4, hC]
                · cases w with
                  | obj cur =>
                    cases h5 : ((cur.lookup "temperature").getD JSON.null).isPyNum with
                    | false =>
                      simp [validate_data_types, validate_data_types_body, validate_data_types_claim, pyGetD, pyGet, passert, bind, Except.bind, isStrOpt_getD, isPyNumOpt_getD, isListOpt_getD, isStr_null, isPyNum_null, isList_null, hL, h1, h2, h3, h4, hC, h5]
                    | true =>
                      cases h6 : ((cur.lookup "weather_descriptions").getD JSON.null).isList with
                      | false =>
                        simp [validate_data_types, validate_data_types_body, validate_data_types_claim, pyGetD, pyGet, passert, bind, Except.bind, isStrOpt_getD, isPyNumOpt_getD, isListOpt_getD, isStr_null, isPyNum_null, isList_null, hL, h1, h2, h3, h4, hC, h5, h6]
                      | true =>
                        cases h7 : ((cur.lookup "wind_speed").getD JSON.null).isPyNum with
                        | false =>
                          simp [validate_data_types, validate_data_types_body, validate_data_types_claim, pyGetD, pyGet, passert, bind, Except.bind, isStrOpt_getD, isPyNumOpt_getD, isListOpt_getD, isStr_null, isPyNum_null, isList_null, hL, h1, h2, h3, h4, hC, h5, h6, h7]
                        | true =>
                          cases h8 : ((cur.lookup "humidity").getD JSON.null).isPyNum with
                          | false =>
                            simp [validate_data_types, validate_data_types_body, validate_data_types_claim, pyGetD, pyGet, passert, bind, Except.bind, isStrOpt_getD, isPyNumOpt_getD, isListOpt_getD, isStr_null, isPyNum_null, isList_null, hL, h1, h2, h3, h4, hC, h5, h6, h7, h8]
                          | true =>
                            cases h9 : ((cur.lookup "pressure").getD JSON.null).isPyNum with
                            | false =>
                              simp [validate_data_types, validate_data_types_body, validate_data_types_claim, pyGetD, pyGet, passert, bind, Except.bind, isStrOpt_getD, isPyNumOpt_getD, isListOpt_getD, isStr_null, isPyNum_null, isList_null, hL, h1, h2, h3, h4, hC, h5, h6, h7, h8, h9]
                            | true =>
                              simp [validate_data_types, validate_data_types_body, validate_data_types_claim, pyGetD, pyGet, passert, bind, Except.bind, isStrOpt_getD, isPyNumOpt_getD, isListOpt_getD, isStr_null, isPyNum_null, isList_null, hL, h1, h2, h3, h4, hC, h5, h6, h7, h8, h9]
                  | null => simp [validate_data_types, validate_data_types_body, validate_data_types_claim, pyGetD, pyGet, passert, bind, Except.bind, isStrOpt_getD, isPyNumOpt_getD, isListOpt_getD, isStr_null, isPyNum_null, isList_null, hL, h1, h2, h3, h4, hC]
                  | bool b => simp [validate_data_types, validate_data_types_body, validate_data_types_claim, pyGetD, pyGet, passert, bind, Except.bind, isStrOpt_getD, isPyNumOpt_getD, isListOpt_getD, isStr_null, isPyNum_null, isList_null, hL, h1, h2, h3, h4, hC]
                  | num q => simp [validate_data_types, validate_data_types_body, validate_data_types_claim, pyGetD, pyGet, passert, bind, Except.bind, isStrOpt_getD, isPyNumOpt_getD, isListOpt_getD, isStr_null, isPyNum_null, isList_null, hL, h1, h2, h3, h4, hC]
                  | str s => simp [validate_data_types, validate_data_types_body, validate_data_types_claim, pyGetD, pyGet, passert, bind, Except.bind, isStrOpt_getD, isPyNumOpt_getD, isListOpt_getD, isStr_null, isPyNum_null, isList_null, hL, h1, h2, h3, h4, hC]
                  | arr xs => simp [validate_data_types, validate_data_types_body, validate_data_types_claim, pyGetD, pyGet, passert, bind, Except.bind, isStrOpt_getD, isPyNumOpt_getD, isListOpt_getD, isStr_null, isPyNum_null, isList_null, hL, h1, h2, h3, h4, hC]
      | null => simp [validate_data_types, validate_data_types_body, validate_data_types_claim, pyGetD, pyGet, passert, bind, Except.bind, isStrOpt_getD, isPyNumOpt_getD, isListOpt_getD, isStr_null, isPyNum_null, isList_null, hL]
      | bool b => simp [validate_data_types, validate_data_types_body, validate_data_types_claim, pyGetD, pyGet, passert, bind, Except.bind, isStrOpt_getD, isPyNumOpt_getD, isListOpt_getD, isStr_null, isPyNum_null, isList_null, hL]
      | num q => simp [validate_data_types, validate_data_types_body, validate_data_types_claim, pyGetD, pyGet, passert, bind, Except.bind, isStrOpt_getD, isPyNumOpt_getD, isListOpt_getD, isStr_null, isPyNum_null, isList_null, hL]
      | str s => simp [validate_data_types, validate_data_types_body, validate_data_types_claim, pyGetD, pyGet, passert, bind, Except.bind, isStrOpt_getD, isPyNumOpt_getD, isListOpt_getD, isStr_null, isPyNum_null, isList_null, hL]
      | arr xs => simp [validate_data_types, validate_data_types_body, validate_data_types_claim, pyGetD, pyGet, passert, bind, Except.bind, isStrOpt_getD, isPyNumOpt_getD, isListOpt_getD, isStr_null, isPyNum_null, isList_null, hL]
  | null => rfl
  | bool b => rfl
  | num q => rfl
  | str s => rfl
  | arr xs => rfl

/-- A query operation returns a payload only when `_make_request` produced
exactly that payload and `_handle_error_response` returned normally. -/
lemma runQuery_ok_iff (c : WeatherAPIClient) (oracle : Nat → Outcome)
    (data : JSON) :
    runQuery c oracle = .ok data ↔
      (make_request oracle c.max_retries 0).1 = .ok data ∧
      handle_error_response data = .normal := by
  rw [runQuery]
  cases hm : (make_request oracle c.max_retries 0).1 with
  | error e =>
    cases e <;> simp
  | ok d =>
    cases hh : handle_error_response d with
    | normal =>
      simp only [hh]
      constructor
      · intro h
        injection h with h'
        subst h'
        exact ⟨rfl, hh⟩
      · rintro ⟨h1, _⟩
        injection h1 with h'
        rw [h']
    | raised e =>
      simp only [hh]
      constructor
      · intro h
        cases h
      · rintro ⟨h1, h2⟩
        injection h1 with h'
        rw [← h', hh] at h2
        cases h2
    | pyError e =>
      simp only [hh]
      constructor
      · intro h
        cases h
      · rintro ⟨h1, h2⟩
        injection h1 with h'
        rw [← h', hh] at h2
        cases h2

/-! ## Claim theorems -/

/-- C5: `validate_data_types` returns true exactly when `location.name` and
`location.country` are strings, `location.lat` and `location.lon` are strings
(so in particular numeric lat/lon give false), `current.temperature`,
`current.wind_speed`, `current.humidity` and `current.pressure` are
Python-numeric, and `current.weather_descriptions` is a list; on any payload
at all (any missing key or wrong value anywhere) it returns a boolean instead
of propagating an error. -/
theorem C5_validate_data_types_iff (p : JSON) :
    validate_data_types p = .ok (validate_data_types_claim p) :=
  validate_data_types_eq p

/-- C6: on a mapping payload, `validate_response_structure` returns true
exactly when all of `request`, `location` and `current` are present as
top-level keys, and on failure the logged missing-key list is exactly the
required keys absent from the payload. -/
theorem C6_validate_response_structure_iff (kvs : List (String × JSON)) :
    validate_response_structure (.obj kvs) =
      .ok (required_keys_response.all (fun k => (kvs.lookup k).isSome),
           required_keys_response.filter (fun k => !(kvs.lookup k).isSome)) :=
  validate_response_structure_obj kvs

/-- C7 counterexample: the claim quantifies over every input value, but on
the non-mapping payload `5` (a legal result of parsing the JSON body "5")
`validate_response_structure` raises `TypeError` — Python evaluates
`key in 5` — rather than returning a boolean. -/
theorem C7_counterexample :
    validate_response_structure (.num 5) = .error .typeError := rfl

/-- C7 (amended): for every mapping input each of the four validator
operations returns a boolean and never raises; `validate_data_types`
additionally never raises on any input value whatsoever (its body's
exceptions are all caught). -/
theorem C7_validators_total (kvs : List (String × JSON)) (j : JSON) :
    (∃ r, validate_response_structure (.obj kvs) = .ok r) ∧
    (∃ b, validate_location_data (.obj kvs) = .ok b) ∧
    (∃ b, validate_current_weather_data (.obj kvs) = .ok b) ∧
    (∃ b, validate_data_types j = .ok b) :=
  ⟨⟨_, validate_response_structure_obj kvs⟩,
   ⟨_, allContains_obj kvs required_keys_location⟩,
   ⟨_, allContains_obj kvs required_keys_current⟩,
   ⟨_, validate_data_types_eq j⟩⟩

/-- C9: the retry recursion of `_make_request` terminates (it is defined by
well-founded recursion on `max_retries - retry_count`), and a call starting
at attempt 0 performs at most `max_retries + 1` sends for every sequence of
transport outcomes. -/
theorem C9_make_request_bounded (oracle : Nat → Outcome) (maxRetries : Nat) :
    (make_request oracle maxRetries 0).2.1 ≤ maxRetries + 1 := by
  have := make_request_sends_le oracle maxRetries (maxRetries - 0) 0 (Nat.le_refl _)
  simpa using this

/-- C1: with `N` consecutive transport timeouts starting at attempt 0:
if the next attempt succeeds and `N ≤ max_retries`, the call returns that
payload after `N + 1` sends (`N` retries) and exactly `N` one-unit sleeps;
if every attempt up to `max_retries` times out (`N > max_retries`), the call
raises `TimeoutException` after `max_retries + 1` sends and `max_retries`
sleeps. -/
theorem C1_timeout_retry (oracle : Nat → Outcome) (maxRetries N st : Nat)
    (j : JSON) :
    ((∀ i, i < N → oracle i = .timeout) → oracle N = .response st (some j) →
      log_response j = .ok () → N ≤ maxRetries →
      make_request oracle maxRetries 0 = (.ok j, N + 1, N)) ∧
    ((∀ i, i < N → oracle i = .timeout) → maxRetries < N →
      make_request oracle maxRetries 0 =
        (.error (.exc (.timeout "Request timeout after maximum retries" .null)),
         maxRetries + 1, maxRetries)) := by
  constructor
  · intro hto hres hlog hle
    have := make_request_timeouts_then_ok oracle maxRetries st j hlog N 0
      (fun i hi => by simpa using hto i hi) (by simpa using hres) (by omega)
    simpa using this
  · intro hto hlt
    exact make_request_all_timeouts oracle maxRetries maxRetries 0 (by omega)
      (fun i hi => by simpa using hto i (by omega))

def oracleW1 : Nat → Outcome :=
  fun i => if i < 2 then .timeout else .response 200 (some (.obj []))

def oracleW2 : Nat → Outcome := fun _ => .timeout

theorem C1_timeout_retry_witness :
    make_request oracleW1 MAX_RETRIES 0 = (.ok (.obj []), 3, 2) ∧
    make_request oracleW2 MAX_RETRIES 0 =
      (.error (.exc (.timeout "Request timeout after maximum retries" .null)),
       4, 3) := by
  constructor
  · exact (C1_timeout_retry oracleW1 MAX_RETRIES 2 200 (.obj [])).1
      (fun i hi => by simp [oracleW1, hi]) (by simp [oracleW1]) rfl (by decide)
  · exact (C1_timeout_retry oracleW2 MAX_RETRIES 5 0 .null).2
      (fun i _ => rfl) (by decide)

/-- C3: a non-timeout transport failure raises `APIRequestException` wrapping
the cause's description after a single send, with no retry and no sleep; and
when the body is unparseable JSON the HTTP status is checked first: a failing
status (400-599) is surfaced as a request failure wrapping the `HTTPError`
description, while an unparseable body with a passing status raises
`APIRequestException("Invalid JSON response from API")`. -/
theorem C3_non_timeout_failures (oracle : Nat → Outcome)
    (maxRetries r st : Nat) (d : String) :
    (oracle r = .reqError d →
      make_request oracle maxRetries r =
        (.error (.exc (.apiRequest ("Request failed: " ++ d) .null)), 1, 0)) ∧
    (oracle r = .response st none → 400 ≤ st → st < 600 →
      make_request oracle maxRetries r =
        (.error (.exc (.apiRequest ("Request failed: " ++ httpErrorStr st) .null)),
         1, 0)) ∧
    (oracle r = .response st none → ¬(400 ≤ st ∧ st < 600) →
      make_request oracle maxRetries r =
        (.error (.exc (.apiRequest "Invalid JSON response from API" .null)),
         1, 0)) := by
  refine ⟨fun h => ?_, fun h h4 h6 => ?_, fun h hn => ?_⟩
  · rw [make_request, h]
  · rw [make_request, h]
    simp [h4, h6]
  · rw [make_request, h]
    simp [hn]

def oracleW3 : Nat → Outcome :=
  fun i =>
    if i = 0 then .reqError "connection refused"
    else if i = 1 then .response 500 none
    else .response 200 none

theorem C3_non_timeout_failures_witness :
    make_request oracleW3 MAX_RETRIES 0 =
      (.error (.exc (.apiRequest ("Request failed: " ++ "connection refused") .null)),
       1, 0) ∧
    make_request oracleW3 MAX_RETRIES 1 =
      (.error (.exc (.apiRequest ("Request failed: " ++ httpErrorStr 500) .null)),
       1, 0) ∧
    make_request oracleW3 MAX_RETRIES 2 =
      (.error (.exc (.apiRequest "Invalid JSON response from API" .null)), 1, 0) := by
  refine ⟨?_, ?_, ?_⟩
  · exact (C3_non_timeout_failures oracleW3 MAX_RETRIES 0 0 "connection refused").1 rfl
  · exact (C3_non_timeout_failures oracleW3 MAX_RETRIES 1 500 "").2.1 rfl
      (by decide) (by decide)
  · exact (C3_non_timeout_failures oracleW3 MAX_RETRIES 2 200 "").2.2 rfl
      (by decide)

/-- C2: `_handle_error_response` returns normally when the payload has no
`error` key; otherwise, with `code` the numeric `payload.error.code` and
`info` the `payload.error.info`, it raises `InvalidAPIKeyException` for code
101 or 102, `InvalidLocationException` for 601 or 615,
`UsageLimitException` for 104, and the generic `APIRequestException` for any
other code with a message carrying both the code and the info; every raised
exception carries the error code in its `error_code` field. -/
theorem C2_error_code_mapping (kvs ekvs : List (String × JSON)) (q : ℚ) :
    (kvs.lookup "error" = none → handle_error_response (.obj kvs) = .normal) ∧
    (kvs.lookup "error" = some (.obj ekvs) →
      (ekvs.lookup "code").getD .null = .num q →
      ((q = 101 ∨ q = 102 →
          handle_error_response (.obj kvs) =
            .raised (.invalidAPIKey
              ("Invalid API key: " ++ pyStr ((ekvs.lookup "info").getD .null))
              (.num q))) ∧
       (q = 601 ∨ q = 615 →
          handle_error_response (.obj kvs) =
            .raised (.invalidLocation
              ("Invalid location: " ++ pyStr ((ekvs.lookup "info").getD .null))
              (.num q))) ∧
       (q = 104 →
          handle_error_response (.obj kvs) =
            .raised (.usageLimit
              ("Usage limit reached: " ++ pyStr ((ekvs.lookup "info").getD .null))
              (.num q))) ∧
       (q ≠ 101 → q ≠ 102 → q ≠ 601 → q ≠ 615 → q ≠ 104 →
          handle_error_response (.obj kvs) =
            .raised (.apiRequest
              ("API error " ++ pyStr (.num q) ++ ": " ++
                pyStr ((ekvs.lookup "info").getD .null))
              (.num q))))) := by
  constructor
  · intro h
    simp [handle_error_response, pyContains, h]
  · intro hE hq
    have hmain : handle_error_response (.obj kvs) =
        (if (q == (101 : ℚ)) || (q == (102 : ℚ)) then
          .raised (.invalidAPIKey
            ("Invalid API key: " ++ pyStr ((ekvs.lookup "info").getD .null))
            (.num q))
         else if (q == (601 : ℚ)) || (q == (615 : ℚ)) then
          .raised (.invalidLocation
            ("Invalid location: " ++ pyStr ((ekvs.lookup "info").getD .null))
            (.num q))
         else if q == (104 : ℚ) then
          .raised (.usageLimit
            ("Usage limit reached: " ++ pyStr ((ekvs.lookup "info").getD .null))
            (.num q))
         else
          .raised (.apiRequest
            ("API error " ++ pyStr (.num q) ++ ": " ++
              pyStr ((ekvs.lookup "info").getD .null))
            (.num q))) := by
      rw [handle_error_response]
      simp only [pyContains, hE, Option.isSome_some]
      rw [extract_error_info]
      simp only [pyContains, hE, Option.isSome_some, pyIndex, pyGet, bind,
        Except.bind, hq, if_true, pyEqNum]
    refine ⟨?_, ?_, ?_, ?_⟩
    · rintro (rfl | rfl) <;> simp [hmain]
    · rintro (rfl | rfl) <;> simp [hmain]
    · rintro rfl
      simp [hmain]
    · intro h1 h2 h3 h4 h5
      have f1 : (q == (101 : ℚ)) = false := beq_eq_false_iff_ne.mpr h1
      have f2 : (q == (102 : ℚ)) = false := beq_eq_false_iff_ne.mpr h2
      have f3 : (q == (601 : ℚ)) = false := beq_eq_false_iff_ne.mpr h3
      have f4 : (q == (615 : ℚ)) = false := beq_eq_false_iff_ne.mpr h4
      have f5 : (q == (104 : ℚ)) = false := beq_eq_false_iff_ne.mpr h5
      rw [hmain, f1, f2, f3, f4, f5]
      rfl

theorem C2_error_code_mapping_witness :
    handle_error_response (.obj []) = .normal ∧
    handle_error_response
        (.obj [("error", .obj [("code", .num 101), ("info", .str "x")])]) =
      .raised (.invalidAPIKey ("Invalid API key: " ++ pyStr (.str "x")) (.num 101)) ∧
    handle_error_response
        (.obj [("error", .obj [("code", .num 615), ("info", .str "x")])]) =
      .raised (.invalidLocation ("Invalid location: " ++ pyStr (.str "x")) (.num 615)) ∧
    handle_error_response
        (.obj [("error", .obj [("code", .num 104), ("info", .str "x")])]) =
      .raised (.usageLimit ("Usage limit reached: " ++ pyStr (.str "x")) (.num 104)) ∧
    handle_error_response
        (.obj [("error", .obj [("code", .num 999), ("info", .str "x")])]) =
      .raised (.apiRequest
        ("API error " ++ pyStr (.num 999) ++ ": " ++ pyStr (.str "x")) (.num 999)) := by
  refine ⟨(C2_error_code_mapping [] [] 0).1 rfl, ?_, ?_, ?_, ?_⟩
  · exact (((C2_error_code_mapping
      [("error", .obj [("code", .num 101), ("info", .str "x")])]
      [("code", .num 101), ("info", .str "x")] 101).2 rfl rfl).1 (Or.inl rfl))
  · exact (((C2_error_code_mapping
      [("error", .obj [("code", .num 615), ("info", .str "x")])]
      [("code", .num 615), ("info", .str "x")] 615).2 rfl rfl).2.1 (Or.inr rfl))
  · exact (((C2_error_code_mapping
      [("error", .obj [("code", .num 104), ("info", .str "x")])]
      [("code", .num 104), ("info", .str "x")] 104).2 rfl rfl).2.2.1 rfl)
  · exact (((C2_error_code_mapping
      [("error", .obj [("code", .num 999), ("info", .str "x")])]
      [("code", .num 999), ("info", .str "x")] 999).2 rfl rfl).2.2.2
      (by norm_num) (by norm_num) (by norm_num) (by norm_num) (by norm_num))

/-- C10: a payload whose `error` key holds a mapping always makes
`_handle_error_response` raise — even when the nested `code`/`info` fields
are absent, `extract_error_info` yields `None` for them and the generic
branch raises — so no query operation can ever return such a payload. -/
theorem C10_error_marker_never_returned (kvs ekvs : List (String × JSON))
    (h : kvs.lookup "error" = some (.obj ekvs)) :
    (∃ e, handle_error_response (.obj kvs) = .raised e) ∧
    (∀ c oracle location units,
        (get_current_weather c oracle location units).2 ≠ .ok (.obj kvs)) ∧
    (∀ c oracle location historical_date units,
        (get_historical_weather c oracle location historical_date units).2 ≠
          .ok (.obj kvs)) ∧
    (∀ c oracle location forecast_days units,
        (get_forecast_weather c oracle location forecast_days units).2 ≠
          .ok (.obj kvs)) := by
  have hraised : ∃ e, handle_error_response (.obj kvs) = .raised e := by
    rw [handle_error_response]
    simp only [pyContains, h, Option.isSome_some]
    rw [extract_error_info]
    simp only [pyContains, h, Option.isSome_some, pyIndex, pyGet, bind,
      Except.bind, if_true]
    split
    · exact ⟨_, rfl⟩
    · split
      · exact ⟨_, rfl⟩
      · split
        · exact ⟨_, rfl⟩
        · exact ⟨_, rfl⟩
  have hnot : ∀ c oracle, runQuery c oracle ≠ .ok (.obj kvs) := by
    intro c oracle hcon
    obtain ⟨e, he⟩ := hraised
    have h2 := ((runQuery_ok_iff c oracle (.obj kvs)).mp hcon).2
    rw [he] at h2
    cases h2
  exact ⟨hraised, fun c oracle _ _ => hnot c oracle,
         fun c oracle _ _ _ => hnot c oracle,
         fun c oracle _ _ _ => hnot c oracle⟩

def oracleW4 : Nat → Outcome := fun _ => .response 200 (some (.obj []))

theorem C10_error_marker_never_returned_witness :
    (∃ e, handle_error_response (.obj [("error", .obj [])]) = .raised e) ∧
    (get_current_weather defaultClient oracleW4 "Cluj" "m").2 ≠
      .ok (.obj [("error", .obj [])]) := by
  have h := C10_error_marker_never_returned [("error", .obj [])] [] rfl
  exact ⟨h.1, h.2.1 defaultClient oracleW4 "Cluj" "m"⟩

/-- C4: each query operation sends its fixed endpoint with exactly the
documented parameter mapping (`access_key`, `query`, `units`, plus
`historical_date` resp. `forecast_days`), and whenever it returns a payload
that payload is exactly the one the transport produced, unchanged, with the
error check passing — so a call never yields a partial result. -/
theorem C4_query_operations (c : WeatherAPIClient) (oracle : Nat → Outcome)
    (location units historical_date : String) (forecast_days : Int) :
    (get_current_weather c oracle location units).1 =
      ⟨"/current", [("access_key", .s c.api_key), ("query", .s location),
                    ("units", .s units)]⟩ ∧
    (get_historical_weather c oracle location historical_date units).1 =
      ⟨"/historical", [("access_key", .s c.api_key), ("query", .s location),
                       ("historical_date", .s historical_date),
                       ("units", .s units)]⟩ ∧
    (get_forecast_weather c oracle location forecast_days units).1 =
      ⟨"/forecast", [("access_key", .s c.api_key), ("query", .s location),
                     ("forecast_days", .i forecast_days),
                     ("units", .s units)]⟩ ∧
    (∀ data, (get_current_weather c oracle location units).2 = .ok data →
        (make_request oracle c.max_retries 0).1 = .ok data ∧
        handle_error_response data = .normal) ∧
    (∀ data,
        (get_historical_weather c oracle location historical_date units).2 =
          .ok data →
        (make_request oracle c.max_retries 0).1 = .ok data ∧
        handle_error_response data = .normal) ∧
    (∀ data, (get_forecast_weather c oracle location forecast_days units).2 =
          .ok data →
        (make_request oracle c.max_retries 0).1 = .ok data ∧
        handle_error_response data = .normal) := by
  refine ⟨rfl, rfl, rfl, ?_, ?_, ?_⟩ <;>
    exact fun data h => (runQuery_ok_iff c oracle data).mp h

theorem C4_query_operations_witness :
    (make_request oracleW4 defaultClient.max_retries 0).1 = .ok (.obj []) ∧
    handle_error_response (.obj []) = .normal := by
  have hm : (make_request oracleW4 defaultClient.max_retries 0).1 =
      .ok (.obj []) := by
    rw [make_request]
    rfl
  refine (C4_query_operations defaultClient oracleW4 "Cluj" "m" "2024-12-24"
    7).2.2.2.1 (.obj []) ?_
  show runQuery defaultClient oracleW4 = .ok (.obj [])
  rw [runQuery, hm]
  rfl

lemma validate_data_types_claim_obj_true (kvs : List (String × JSON))
    (h : validate_data_types_claim (.obj kvs) = true) :
    ∃ lkvs ckvs s t,
      kvs.lookup "location" = some (.obj lkvs) ∧
      kvs.lookup "current" = some (.obj ckvs) ∧
      lkvs.lookup "name" = some (.str s) ∧
      ckvs.lookup "temperature" = some t ∧ t.isPyNum = true := by
  rw [validate_data_types_claim] at h
  rcases hL : kvs.lookup "location" with _ | v <;> rw [hL] at h
  · simp at h
  rcases hC : kvs.lookup "current" with _ | w <;> rw [hC] at h
  · cases v <;> simp at h
  cases v with
  | obj lkvs =>
    cases w with
    | obj ckvs =>
      simp only [Bool.and_eq_true] at h
      obtain ⟨⟨⟨⟨hname, _⟩, _⟩, _⟩, ⟨⟨⟨⟨htemp, _⟩, _⟩, _⟩, _⟩⟩ := h
      rcases hn : lkvs.lookup "name" with _ | u <;> rw [hn] at hname
      · simp [isStrOpt] at hname
      cases u <;> simp only [isStrOpt] at hname
      case str s =>
        rcases ht : ckvs.lookup "temperature" with _ | t <;> rw [ht] at htemp
        · simp [isPyNumOpt] at htemp
        exact ⟨lkvs, ckvs, s, t, rfl, rfl, hn, ht, by
          simpa [isPyNumOpt] using htemp⟩
      all_goals cases hname
    | null => simp at h
    | bool b => simp at h
    | num q => simp at h
    | str s => simp at h
    | arr xs => simp at h
  | null => simp at h
  | bool b => simp at h
  | num q => simp at h
  | str s => simp at h
  | arr xs => simp at h

/-- C8: any payload accepted by all four validator checks exposes
`location.name` as a string and `current.temperature` as a Python-numeric
value directly by subscript access, with no further transformation. -/
theorem C8_validated_roundtrip (p loc cur : JSON)
    (h1 : validate_response_structure p = .ok (true, []))
    (hloc : pyIndex p "location" = .ok loc)
    (h2 : validate_location_data loc = .ok true)
    (hcur : pyIndex p "current" = .ok cur)
    (h3 : validate_current_weather_data cur = .ok true)
    (h4 : validate_data_types p = .ok true) :
    (∃ s, pyIndex loc "name" = .ok (.str s)) ∧
    (∃ t, pyIndex cur "temperature" = .ok t ∧ t.isPyNum = true) := by
  have hc := validate_data_types_eq p
  rw [h4] at hc
  have hclaim : validate_data_types_claim p = true := by
    injection hc with h'
    exact h'.symm
  cases p with
  | obj kvs =>
    obtain ⟨lkvs, ckvs, s, t, hL, hC, hn, ht, hnum⟩ :=
      validate_data_types_claim_obj_true kvs hclaim
    have hloc2 : loc = .obj lkvs := by
      have he : pyIndex (.obj kvs) "location" = .ok (.obj lkvs) := by
        simp [pyIndex, hL]
      rw [he] at hloc
      injection hloc with h'
      exact h'.symm
    have hcur2 : cur = .obj ckvs := by
      have he : pyIndex (.obj kvs) "current" = .ok (.obj ckvs) := by
        simp [pyIndex, hC]
      rw [he] at hcur
      injection hcur with h'
      exact h'.symm
    subst hloc2
    subst hcur2
    exact ⟨⟨s, by simp [pyIndex, hn]⟩, ⟨t, by simp [pyIndex, ht], hnum⟩⟩
  | null => simp [validate_data_types_claim] at hclaim
  | bool b => simp [validate_data_types_claim] at hclaim
  | num q => simp [validate_data_types_claim] at hclaim
  | str s => simp [validate_data_types_claim] at hclaim
  | arr xs => simp [validate_data_types_claim] at hclaim

def sampleLocation : JSON :=
  .obj [("name", .str "Cluj"), ("country", .str "Romania"),
        ("region", .str "Cluj"), ("lat", .str "46.767"),
        ("lon", .str "23.600"), ("timezone_id", .str "Europe/Bucharest")]

def sampleCurrent : JSON :=
  .obj [("temperature", .num 9),
        ("weather_descriptions", .arr [.str "Sunny"]),
        ("wind_speed", .num 11), ("wind_degree", .num 140),
        ("pressure", .num 1021), ("humidity", .num 62),
        ("cloudcover", .num 0), ("feelslike", .num 8),
        ("visibility", .num 10)]

def samplePayload : JSON :=
  .obj [("request", .obj [("type", .str "City")]),
        ("location", sampleLocation), ("current", sampleCurrent)]

theorem C8_validated_roundtrip_witness :
    (∃ s, pyIndex sampleLocation "name" = .ok (.str s)) ∧
    (∃ t, pyIndex sampleCurrent "temperature" = .ok t ∧ t.isPyNum = true) :=
  C8_validated_roundtrip samplePayload sampleLocation sampleCurrent
    rfl rfl rfl rfl rfl rfl
